import Mathlib

/-
Shallow embedding of the employee-management backend (FastAPI + SQLAlchemy +
Postgres) for checking its natural-language specification.

Conventions of the embedding:
* The relational store is a record of lists of rows; ids are `Nat`.
* Decimal columns (salary, base_salary, rate) are carried as `Int`; dates and
  timestamps as `Nat`.  No claim depends on their arithmetic.
* Every service operation takes a `dbFail : Bool` flag modelling an unexpected
  exception raised by the persistence driver (caught by the `try/except` that
  wraps each operation in the source); the exception text `str(e)` is modelled
  by the opaque constants `dbError` / `fkError` / `uniqueError`.
* Store-level constraints declared by the SQLAlchemy models (unique columns,
  foreign keys) are enforced at the commit step, as Postgres would.
* Python truthiness on optional integer / string parameters is modelled
  explicitly (`0`, `""` and `None` are falsy).
-/

/-- Response envelope, app/schemas/base.py `DefaultResponse`. -/
structure DefaultResponse (α : Type) where
  error : Bool
  message : String
  payload : Option α
deriving DecidableEq

/-- Row of the `department` table (app/models/department.py). -/
structure Department where
  id : Nat
  name : String
  description : Option String
deriving DecidableEq

/-- Row of the `position` table (app/models/position.py). -/
structure Position where
  id : Nat
  title : String
  description : Option String
  base_salary : Int
deriving DecidableEq

/-- Row of the `status` table (app/models/status.py). -/
structure Status where
  id : Nat
  name : String
deriving DecidableEq

/-- Row of the `employee` table (app/models/employee.py). -/
structure Employee where
  id : Nat
  first_name : String
  last_name : String
  middle_name : Option String
  birth_date : Nat
  email : Option String
  phone : Option String
  hire_date : Nat
  salary : Int
  rate : Int
  department_id : Option Nat
  position_id : Option Nat
  status_id : Nat
  address : Option String
  created_at : Nat
  updated_at : Nat
deriving DecidableEq

/-- The relational store: one list of rows per table used by the services. -/
structure Store where
  departments : List Department
  positions : List Position
  statuses : List Status
  employees : List Employee
deriving DecidableEq

def Store.findDept (s : Store) (i : Nat) : Option Department :=
  s.departments.find? (fun d => d.id == i)

def Store.findPos (s : Store) (i : Nat) : Option Position :=
  s.positions.find? (fun p => p.id == i)

def Store.findStatus (s : Store) (i : Nat) : Option Status :=
  s.statuses.find? (fun st => st.id == i)

def Store.findEmp (s : Store) (i : Nat) : Option Employee :=
  s.employees.find? (fun e => e.id == i)

/-- Aggregate `count(Employee.id) where department_id == i`. -/
def Store.deptEmployeeCount (s : Store) (i : Nat) : Nat :=
  s.employees.countP (fun e => e.department_id == some i)

/-- Aggregate `count(Employee.id) where position_id == i`. -/
def Store.posEmployeeCount (s : Store) (i : Nat) : Nat :=
  s.employees.countP (fun e => e.position_id == some i)

/-- Auto-assigned integer primary key (sequence modelled as max id + 1). -/
def nextId (ids : List Nat) : Nat := ids.foldr max 0 + 1

/-- Opaque text of an unexpected driver exception (`str(e)` in the source). -/
def dbError : String := "DBAPIError"

/-- Opaque text of a foreign-key constraint violation raised at commit. -/
def fkError : String := "ForeignKeyViolationError"

/-- Opaque text of a unique-constraint violation raised at commit. -/
def uniqueError : String := "UniqueViolationError"

/-- Unique constraint on `department.name`. -/
def deptNameTaken (s : Store) (n : String) : Bool :=
  s.departments.any (fun d => d.name == n)

/-- Unique constraint on `position.title`. -/
def posTitleTaken (s : Store) (t : String) : Bool :=
  s.positions.any (fun p => p.title == t)

/-- Commit of an INSERT into `department`: Postgres enforces the unique name. -/
def dbInsertDepartment (s : Store) (d : Department) : Except String Store :=
  if deptNameTaken s d.name then .error uniqueError
  else .ok { s with departments := s.departments ++ [d] }

/-- Commit of an INSERT into `position`: Postgres enforces the unique title. -/
def dbInsertPosition (s : Store) (p : Position) : Except String Store :=
  if posTitleTaken s p.title then .error uniqueError
  else .ok { s with positions := s.positions ++ [p] }

/-- Foreign-key constraints on an employee row, as declared by the model. -/
def employeeFKOk (s : Store) (e : Employee) : Bool :=
  (match e.department_id with
   | none => true
   | some d => (s.findDept d).isSome) &&
  (match e.position_id with
   | none => true
   | some p => (s.findPos p).isSome) &&
  (s.findStatus e.status_id).isSome

/-- Unique constraint on the nullable `employee.email` column. -/
def employeeEmailFree (s : Store) (selfId : Nat) (e : Employee) : Bool :=
  match e.email with
  | none => true
  | some m => !(s.employees.any (fun x => x.email == some m && x.id != selfId))

/-- Commit of an INSERT into `employee`: FK and unique checks as in Postgres. -/
def dbInsertEmployee (s : Store) (e : Employee) : Except String Store :=
  if !(employeeFKOk s e) then .error fkError
  else if !(employeeEmailFree s e.id e) then .error uniqueError
  else .ok { s with employees := s.employees ++ [e] }

/-- Commit of an UPDATE of the employee row with id `i` to the value `e`. -/
def dbUpdateEmployee (s : Store) (i : Nat) (e : Employee) : Except String Store :=
  if !(employeeFKOk s e) then .error fkError
  else if !(employeeEmailFree s i e) then .error uniqueError
  else .ok { s with employees := s.employees.map (fun x => if x.id == i then e else x) }

/-- Payload shape of app/schemas/department.py `DepartmentSchema`. -/
structure DepartmentSchema where
  id : Nat
  name : String
  description : Option String
  employee_count : Nat
deriving DecidableEq

/-- Input shape of app/schemas/department.py `DepartmentCreate`. -/
structure DepartmentCreate where
  name : String
  description : Option String
deriving DecidableEq

/-- Patch shape of app/schemas/department.py `DepartmentUpdate` under
`model_dump(exclude_unset=True)`: an outer `none` means the field was not
supplied.  (Explicitly supplying `null` for the non-nullable `name` is not
modelled.) -/
structure DepartmentUpdate where
  name : Option String
  description : Option (Option String)
deriving DecidableEq

def deptSchema (s : Store) (d : Department) : DepartmentSchema :=
  ⟨d.id, d.name, d.description, s.deptEmployeeCount d.id⟩

/-- The `setattr` loop of `update_department` applied to one row. -/
def applyDeptPatch (p : DepartmentUpdate) (d : Department) : Department :=
  { d with
    name := p.name.getD d.name
    description := p.description.getD d.description }

def deptPatchEmpty (p : DepartmentUpdate) : Bool :=
  p.name.isNone && p.description.isNone

namespace DepartmentService

/-- app/services/department_service.py `get_all_departments`. -/
def get_all_departments (dbFail : Bool) (skip limit : Nat) (s : Store) :
    DefaultResponse (List DepartmentSchema) :=
  if dbFail then ⟨true, "Error retrieving departments: " ++ dbError, none⟩
  else
    ⟨false, "Departments retrieved successfully",
      some (((s.departments.map (fun d => deptSchema s d)).drop skip).take limit)⟩

/-- app/services/department_service.py `get_department_by_id`. -/
def get_department_by_id (dbFail : Bool) (i : Nat) (s : Store) :
    DefaultResponse DepartmentSchema :=
  if dbFail then ⟨true, "Error retrieving department: " ++ dbError, none⟩
  else
    match s.findDept i with
    | none => ⟨true, "Department not found", none⟩
    | some d => ⟨false, "Department retrieved successfully", some (deptSchema s d)⟩

/-- app/services/department_service.py `create_department`: duplicate-name
pre-check, then insert and commit. -/
def create_department (dbFail : Bool) (data : DepartmentCreate) (s : Store) :
    DefaultResponse DepartmentSchema × Store :=
  if dbFail then (⟨true, "Error creating department: " ++ dbError, none⟩, s)
  else if deptNameTaken s data.name then
    (⟨true, "Department with this name already exists", none⟩, s)
  else
    let d : Department := ⟨nextId (s.departments.map (fun x => x.id)), data.name, data.description⟩
    match dbInsertDepartment s d with
    | .error e => (⟨true, "Error creating department: " ++ e, none⟩, s)
    | .ok s' => (⟨false, "Department created successfully",
                  some ⟨d.id, d.name, d.description, 0⟩⟩, s')

/-- app/services/department_service.py `update_department`: load, uniqueness
pre-check for a patched name, patch via `setattr`, commit, re-count. -/
def update_department (dbFail : Bool) (i : Nat) (p : DepartmentUpdate) (s : Store) :
    DefaultResponse DepartmentSchema × Store :=
  if dbFail then (⟨true, "Error updating department: " ++ dbError, none⟩, s)
  else
    match s.findDept i with
    | none => (⟨true, "Department not found", none⟩, s)
    | some d =>
      if (match p.name with
          | some n => s.departments.any (fun x => x.name == n && x.id != i)
          | none => false) then
        (⟨true, "Department with this name already exists", none⟩, s)
      else
        let d' := applyDeptPatch p d
        let rows := s.departments.map (fun x => if x.id == i then applyDeptPatch p x else x)
        let s' := { s with departments := rows }
        (⟨false, "Department updated successfully",
          some ⟨d'.id, d'.name, d'.description, s'.deptEmployeeCount i⟩⟩, s')

/-- app/services/department_service.py `delete_department`: refuse when the
dependent employee count is positive, delete otherwise. -/
def delete_department (dbFail : Bool) (i : Nat) (s : Store) :
    DefaultResponse Unit × Store :=
  if dbFail then (⟨true, "Error deleting department: " ++ dbError, none⟩, s)
  else
    match s.findDept i with
    | none => (⟨true, "Department not found", none⟩, s)
    | some _ =>
      let c := s.deptEmployeeCount i
      if 0 < c then
        (⟨true, "Cannot delete department with " ++ toString c ++ " employees", none⟩, s)
      else
        (⟨false, "Department deleted successfully", none⟩,
         { s with departments := s.departments.filter (fun d => d.id != i) })

/-- app/services/department_service.py `get_departments_for_web`: returns a
bare list of row dictionaries, and the empty list when anything raises. -/
def get_departments_for_web (dbFail : Bool) (s : Store) : List DepartmentSchema :=
  if dbFail then []
  else s.departments.map (fun d => deptSchema s d)

end DepartmentService

/-- Payload shape of app/schemas/position.py `PositionSchema`. -/
structure PositionSchema where
  id : Nat
  title : String
  description : Option String
  base_salary : Int
  employee_count : Nat
deriving DecidableEq

/-- Input shape of app/schemas/position.py `PositionCreate`. -/
structure PositionCreate where
  title : String
  description : Option String
  base_salary : Int
deriving DecidableEq

/-- Patch shape of app/schemas/position.py `PositionUpdate` under
`model_dump(exclude_unset=True)`. -/
structure PositionUpdate where
  title : Option String
  description : Option (Option String)
  base_salary : Option Int
deriving DecidableEq

def posSchema (s : Store) (p : Position) : PositionSchema :=
  ⟨p.id, p.title, p.description, p.base_salary, s.posEmployeeCount p.id⟩

/-- The `setattr` loop of `update_position` applied to one row. -/
def applyPosPatch (u : PositionUpdate) (p : Position) : Position :=
  { p with
    title := u.title.getD p.title
    description := u.description.getD p.description
    base_salary := u.base_salary.getD p.base_salary }

namespace PositionService

/-- app/services/position_service.py `get_all_positions`. -/
def get_all_positions (dbFail : Bool) (skip limit : Nat) (s : Store) :
    DefaultResponse (List PositionSchema) :=
  if dbFail then ⟨true, "Error retrieving positions: " ++ dbError, none⟩
  else
    ⟨false, "Positions retrieved successfully",
      some (((s.positions.map (fun p => posSchema s p)).drop skip).take limit)⟩

/-- app/services/position_service.py `get_position_by_id`. -/
def get_position_by_id (dbFail : Bool) (i : Nat) (s : Store) :
    DefaultResponse PositionSchema :=
  if dbFail then ⟨true, "Error retrieving position: " ++ dbError, none⟩
  else
    match s.findPos i with
    | none => ⟨true, "Position not found", none⟩
    | some p => ⟨false, "Position retrieved successfully", some (posSchema s p)⟩

/-- app/services/position_service.py `create_position`. -/
def create_position (dbFail : Bool) (data : PositionCreate) (s : Store) :
    DefaultResponse PositionSchema × Store :=
  if dbFail then (⟨true, "Error creating position: " ++ dbError, none⟩, s)
  else if posTitleTaken s data.title then
    (⟨true, "Position with this title already exists", none⟩, s)
  else
    let p : Position := ⟨nextId (s.positions.map (fun x => x.id)), data.title,
      data.description, data.base_salary⟩
    match dbInsertPosition s p with
    | .error e => (⟨true, "Error creating position: " ++ e, none⟩, s)
    | .ok s' => (⟨false, "Position created successfully",
                  some ⟨p.id, p.title, p.description, p.base_salary, 0⟩⟩, s')

/-- app/services/position_service.py `update_position`. -/
def update_position (dbFail : Bool) (i : Nat) (u : PositionUpdate) (s : Store) :
    DefaultResponse PositionSchema × Store :=
  if dbFail then (⟨true, "Error updating position: " ++ dbError, none⟩, s)
  else
    match s.findPos i with
    | none => (⟨true, "Position not found", none⟩, s)
    | some p =>
      if (match u.title with
          | some t => s.positions.any (fun x => x.title == t && x.id != i)
          | none => false) then
        (⟨true, "Position with this title already exists", none⟩, s)
      else
        let p' := applyPosPatch u p
        let rows := s.positions.map (fun x => if x.id == i then applyPosPatch u x else x)
        let s' := { s with positions := rows }
        (⟨false, "Position updated successfully",
          some ⟨p'.id, p'.title, p'.description, p'.base_salary, s'.posEmployeeCount i⟩⟩, s')

/-- app/services/position_service.py `delete_position`. -/
def delete_position (dbFail : Bool) (i : Nat) (s : Store) :
    DefaultResponse Unit × Store :=
  if dbFail then (⟨true, "Error deleting position: " ++ dbError, none⟩, s)
  else
    match s.findPos i with
    | none => (⟨true, "Position not found", none⟩, s)
    | some _ =>
      let c := s.posEmployeeCount i
      if 0 < c then
        (⟨true, "Cannot delete position with " ++ toString c ++ " employees", none⟩, s)
      else
        (⟨false, "Position deleted successfully", none⟩,
         { s with positions := s.positions.filter (fun p => p.id != i) })

/-- app/services/position_service.py `get_positions_for_web`: bare list of
schemas, empty on any exception. -/
def get_positions_for_web (dbFail : Bool) (s : Store) : List PositionSchema :=
  if dbFail then []
  else s.positions.map (fun p => posSchema s p)

end PositionService

/-- Case folding used by ILIKE; pattern literals and subject characters are
folded with the same function. -/
def lc (c : Char) : Char := c.toLower

/-- Semantics of a SQL LIKE pattern in its case-insensitive (ILIKE) form:
a percent sign matches any sequence (rendered here as a choice over every
possible number of consumed characters), an underscore matches any single
character, a backslash escapes the following pattern character, and any other
character matches itself up to case folding. -/
def likeMatch : List Char → List Char → Bool
  | [], s => s.isEmpty
  | a :: p, s =>
    if a = '%' then
      (List.range (s.length + 1)).any (fun n => likeMatch p (s.drop n))
    else
      match s with
      | [] => false
      | c :: s' =>
        if a = '_' then likeMatch p s'
        else if a = '\\' then
          match p with
          | [] => false
          | b :: p' => (lc b == lc c) && likeMatch p' s'
        else (lc a == lc c) && likeMatch p s'

/-- The filter `column ILIKE '%' ++ search ++ '%'` used by the employee query
(app/services/employee_service.py `_build_employee_query`). -/
def ilikeSearch (search field : String) : Bool :=
  likeMatch (('%' :: search.data) ++ ['%']) field.data

/-- Python truthiness of an optional integer: `None` and `0` are falsy. -/
def truthyNat : Option Nat → Bool
  | none => false
  | some n => n != 0

/-- Python truthiness of an optional string: `None` and `""` are falsy. -/
def truthyStr : Option String → Bool
  | none => false
  | some s => s != ""

/-- Evaluates `'field' in update_data and update_data['field']` for a
doubly-optional patched integer column, returning the value when truthy. -/
def suppliedTruthyNat : Option (Option Nat) → Option Nat
  | some (some n) => if n != 0 then some n else none
  | _ => none

/-- Same truthiness test for the singly-optional patched `status_id`. -/
def patchTruthyNat : Option Nat → Option Nat
  | some n => if n != 0 then some n else none
  | none => none

/-- Payload shape of app/schemas/employee.py `EmployeeSchema`.  Pydantic
silently drops the extra keys the service passes (full_name, created_at,
updated_at, department_name, position_title, status_name, skills), so the
payload carries exactly the declared fields. -/
structure EmployeeSchema where
  id : Nat
  first_name : String
  last_name : String
  middle_name : Option String
  birth_date : Nat
  email : Option String
  phone : Option String
  hire_date : Nat
  salary : Int
  rate : Int
  department_id : Option Nat
  position_id : Option Nat
  status_id : Nat
  address : Option String
deriving DecidableEq

def employeeToSchema (e : Employee) : EmployeeSchema :=
  ⟨e.id, e.first_name, e.last_name, e.middle_name, e.birth_date, e.email,
   e.phone, e.hire_date, e.salary, e.rate, e.department_id, e.position_id,
   e.status_id, e.address⟩

/-- Input shape of app/schemas/employee.py `EmployeeCreate`. -/
structure EmployeeCreate where
  first_name : String
  last_name : String
  middle_name : Option String
  birth_date : Nat
  email : Option String
  phone : Option String
  hire_date : Nat
  salary : Int
  rate : Int
  department_id : Option Nat
  position_id : Option Nat
  status_id : Nat
  address : Option String
deriving DecidableEq

/-- Patch shape of app/schemas/employee.py `EmployeeUpdate` under
`model_dump(exclude_unset=True)`: the outer option distinguishes an unset
field from a supplied one; for nullable columns the inner option is the
supplied value.  (Explicitly supplying `null` for non-nullable columns is not
modelled.) -/
structure EmployeeUpdate where
  first_name : Option String
  last_name : Option String
  middle_name : Option (Option String)
  birth_date : Option Nat
  email : Option (Option String)
  phone : Option (Option String)
  hire_date : Option Nat
  salary : Option Int
  rate : Option Int
  department_id : Option (Option Nat)
  position_id : Option (Option Nat)
  status_id : Option Nat
  address : Option (Option String)
deriving DecidableEq

def empPatchEmpty (q : EmployeeUpdate) : Bool :=
  q.first_name.isNone && q.last_name.isNone && q.middle_name.isNone &&
  q.birth_date.isNone && q.email.isNone && q.phone.isNone &&
  q.hire_date.isNone && q.salary.isNone && q.rate.isNone &&
  q.department_id.isNone && q.position_id.isNone && q.status_id.isNone &&
  q.address.isNone

/-- The `setattr` loop of `update_employee` applied to one row; SQLAlchemy
refreshes `updated_at` on the UPDATE statement (`onupdate=datetime.utcnow`),
which is issued only when at least one attribute was changed. -/
def applyEmployeePatch (now : Nat) (q : EmployeeUpdate) (e : Employee) : Employee :=
  { e with
    first_name := q.first_name.getD e.first_name
    last_name := q.last_name.getD e.last_name
    middle_name := q.middle_name.getD e.middle_name
    birth_date := q.birth_date.getD e.birth_date
    email := q.email.getD e.email
    phone := q.phone.getD e.phone
    hire_date := q.hire_date.getD e.hire_date
    salary := q.salary.getD e.salary
    rate := q.rate.getD e.rate
    department_id := q.department_id.getD e.department_id
    position_id := q.position_id.getD e.position_id
    status_id := q.status_id.getD e.status_id
    address := q.address.getD e.address
    updated_at := now }

/-- The filters dictionary built by `get_all_employees`. -/
structure EmployeeFilters where
  department_id : Option Nat
  position_id : Option Nat
  status_id : Option Nat
  search : Option String
deriving DecidableEq

/-- Row predicate of app/services/employee_service.py `_build_employee_query`:
each filter is applied only when its value is truthy; the search filter is a
disjunction of ILIKE tests on the three name columns (a NULL middle name never
matches, as in SQL). -/
def employeeMatches (f : EmployeeFilters) (e : Employee) : Bool :=
  (if truthyNat f.department_id then e.department_id == f.department_id else true) &&
  (if truthyNat f.position_id then e.position_id == f.position_id else true) &&
  (if truthyNat f.status_id then some e.status_id == f.status_id else true) &&
  (if truthyStr f.search then
    (ilikeSearch (f.search.getD "") e.first_name ||
     ilikeSearch (f.search.getD "") e.last_name ||
     (match e.middle_name with
      | some m => ilikeSearch (f.search.getD "") m
      | none => false))
   else true)

namespace EmployeeService

/-- app/services/employee_service.py `get_all_employees`: filtered query with
offset/limit, rows mapped to `EmployeeSchema`. -/
def get_all_employees (dbFail : Bool) (skip limit : Nat)
    (department_id position_id status_id : Option Nat) (search : Option String)
    (s : Store) : DefaultResponse (List EmployeeSchema) :=
  if dbFail then ⟨true, "Error retrieving employees: " ++ dbError, none⟩
  else
    let filters : EmployeeFilters := ⟨department_id, position_id, status_id, search⟩
    let rows := ((s.employees.filter (employeeMatches filters)).drop skip).take limit
    ⟨false, "Employees retrieved successfully", some (rows.map employeeToSchema)⟩

/-- app/services/employee_service.py `get_employee_by_id`. -/
def get_employee_by_id (dbFail : Bool) (i : Nat) (s : Store) :
    DefaultResponse EmployeeSchema :=
  if dbFail then ⟨true, "Error retrieving employee: " ++ dbError, none⟩
  else
    match s.findEmp i with
    | none => ⟨true, "Employee not found", none⟩
    | some e => ⟨false, "Employee retrieved successfully", some (employeeToSchema e)⟩

/-- app/services/employee_service.py `_validate_employee_relations`: reference
checks before an insert; the position and department checks are skipped for a
falsy (absent or zero) id, the status check is unconditional. -/
def validate_employee_relations (s : Store) (data : EmployeeCreate) :
    Option (DefaultResponse EmployeeSchema) :=
  if truthyNat data.position_id && (s.findPos (data.position_id.getD 0)).isNone then
    some ⟨true, "Position with id " ++ toString (data.position_id.getD 0) ++ " not found", none⟩
  else if truthyNat data.department_id && (s.findDept (data.department_id.getD 0)).isNone then
    some ⟨true, "Department with id " ++ toString (data.department_id.getD 0) ++ " not found", none⟩
  else if (s.findStatus data.status_id).isNone then
    some ⟨true, "Status with id " ++ toString data.status_id ++ " not found", none⟩
  else none

/-- app/services/employee_service.py `create_employee`. -/
def create_employee (dbFail : Bool) (now : Nat) (data : EmployeeCreate) (s : Store) :
    DefaultResponse EmployeeSchema × Store :=
  if dbFail then (⟨true, "Error creating employee: " ++ dbError, none⟩, s)
  else
    match validate_employee_relations s data with
    | some resp => (resp, s)
    | none =>
      let e : Employee :=
        ⟨nextId (s.employees.map (fun x => x.id)), data.first_name, data.last_name,
         data.middle_name, data.birth_date, data.email, data.phone, data.hire_date,
         data.salary, data.rate, data.department_id, data.position_id,
         data.status_id, data.address, now, now⟩
      match dbInsertEmployee s e with
      | .error msg => (⟨true, "Error creating employee: " ++ msg, none⟩, s)
      | .ok s' => (⟨false, "Employee created successfully",
                    (get_employee_by_id false e.id s').payload⟩, s')

/-- Status-id branch of `_validate_employee_update_relations`. -/
def checkUpdStatus (s : Store) (q : EmployeeUpdate) :
    Option (DefaultResponse EmployeeSchema) :=
  match patchTruthyNat q.status_id with
  | some v =>
    if (s.findStatus v).isNone then
      some ⟨true, "Status with id " ++ toString v ++ " not found", none⟩
    else none
  | none => none

/-- Department-id branch of `_validate_employee_update_relations`. -/
def checkUpdDept (s : Store) (q : EmployeeUpdate) :
    Option (DefaultResponse EmployeeSchema) :=
  match suppliedTruthyNat q.department_id with
  | some v =>
    if (s.findDept v).isNone then
      some ⟨true, "Department with id " ++ toString v ++ " not found", none⟩
    else checkUpdStatus s q
  | none => checkUpdStatus s q

/-- app/services/employee_service.py `_validate_employee_update_relations`:
each check runs only when the field is present in the patch and truthy. -/
def validate_employee_update_relations (s : Store) (q : EmployeeUpdate) :
    Option (DefaultResponse EmployeeSchema) :=
  match suppliedTruthyNat q.position_id with
  | some v =>
    if (s.findPos v).isNone then
      some ⟨true, "Position with id " ++ toString v ++ " not found", none⟩
    else checkUpdDept s q
  | none => checkUpdDept s q

/-- app/services/employee_service.py `update_employee`. -/
def update_employee (dbFail : Bool) (now : Nat) (i : Nat) (q : EmployeeUpdate)
    (s : Store) : DefaultResponse EmployeeSchema × Store :=
  if dbFail then (⟨true, "Error updating employee: " ++ dbError, none⟩, s)
  else
    match s.findEmp i with
    | none => (⟨true, "Employee not found", none⟩, s)
    | some e =>
      match validate_employee_update_relations s q with
      | some resp => (resp, s)
      | none =>
        if empPatchEmpty q then
          (⟨false, "Employee updated successfully",
            (get_employee_by_id false i s).payload⟩, s)
        else
          match dbUpdateEmployee s i (applyEmployeePatch now q e) with
          | .error msg => (⟨true, "Error updating employee: " ++ msg, none⟩, s)
          | .ok s' => (⟨false, "Employee updated successfully",
                        (get_employee_by_id false i s').payload⟩, s')

/-- app/services/employee_service.py `delete_employee`: no dependency guard. -/
def delete_employee (dbFail : Bool) (i : Nat) (s : Store) :
    DefaultResponse Unit × Store :=
  if dbFail then (⟨true, "Error deleting employee: " ++ dbError, none⟩, s)
  else
    match s.findEmp i with
    | none => (⟨true, "Employee not found", none⟩, s)
    | some _ =>
      (⟨false, "Employee deleted successfully", none⟩,
       { s with employees := s.employees.filter (fun e => e.id != i) })

end EmployeeService

/-- Row dictionary built by `get_employees_for_web`. -/
structure EmployeeWebRow where
  id : Nat
  first_name : String
  last_name : String
  middle_name : Option String
  birth_date : Nat
  email : Option String
  phone : Option String
  hire_date : Nat
  salary : Int
  rate : Int
  department_id : Option Nat
  position_id : Option Nat
  status_id : Nat
  address : Option String
  department_name : Option String
  position_title : Option String
  status_name : Option String
  full_name : String
  age : Int
  work_experience : Int
deriving DecidableEq

def employeeWebRow (today : Nat) (s : Store) (e : Employee) : EmployeeWebRow :=
  ⟨e.id, e.first_name, e.last_name, e.middle_name, e.birth_date, e.email,
   e.phone, e.hire_date, e.salary, e.rate, e.department_id, e.position_id,
   e.status_id, e.address,
   (e.department_id.bind (fun d => s.findDept d)).map (fun d => d.name),
   (e.position_id.bind (fun p => s.findPos p)).map (fun p => p.title),
   (s.findStatus e.status_id).map (fun st => st.name),
   (e.last_name ++ " " ++ e.first_name ++ " " ++ (e.middle_name.getD "")).trim,
   Int.fdiv ((today : Int) - (e.birth_date : Int)) 365,
   Int.fdiv ((today : Int) - (e.hire_date : Int)) 365⟩

namespace EmployeeService

/-- app/services/employee_service.py `get_employees_for_web`: bare list of row
dictionaries, empty on any exception. -/
def get_employees_for_web (dbFail : Bool) (today : Nat) (s : Store) :
    List EmployeeWebRow :=
  if dbFail then []
  else s.employees.map (fun e => employeeWebRow today s e)

end EmployeeService

namespace SHA256

/-- Word size of the SHA-256 state. -/
def w32 : Nat := 4294967296

def add32 (a b : Nat) : Nat := (a + b) % w32

def rotr (n x : Nat) : Nat := ((x >>> n) ||| (x <<< (32 - n))) % w32

def shr (n x : Nat) : Nat := x >>> n

def bsig0 (x : Nat) : Nat := (rotr 2 x) ^^^ (rotr 13 x) ^^^ (rotr 22 x)

def bsig1 (x : Nat) : Nat := (rotr 6 x) ^^^ (rotr 11 x) ^^^ (rotr 25 x)

def ssig0 (x : Nat) : Nat := (rotr 7 x) ^^^ (rotr 18 x) ^^^ (shr 3 x)

def ssig1 (x : Nat) : Nat := (rotr 17 x) ^^^ (rotr 19 x) ^^^ (shr 10 x)

def ch (x y z : Nat) : Nat := (x &&& y) ^^^ ((x ^^^ 4294967295) &&& z)

def maj (x y z : Nat) : Nat := (x &&& y) ^^^ (x &&& z) ^^^ (y &&& z)

/-- Round constants (decimal rendering of the standard table). -/
def K : List Nat :=
  [1116352408, 1899447441, 3049323471, 3921009573,
   961987163, 1508970993, 2453635748, 2870763221,
   3624381080, 310598401, 607225278, 1426881987,
   1925078388, 2162078206, 2614888103, 3248222580,
   3835390401, 4022224774, 264347078, 604807628,
   770255983, 1249150122, 1555081692, 1996064986,
   2554220882, 2821834349, 2952996808, 3210313671,
   3336571891, 3584528711, 113926993, 338241895,
   666307205, 773529912, 1294757372, 1396182291,
   1695183700, 1986661051, 2177026350, 2456956037,
   2730485921, 2820302411, 3259730800, 3345764771,
   3516065817, 3600352804, 4094571909, 275423344,
   430227734, 506948616, 659060556, 883997877,
   958139571, 1322822218, 1537002063, 1747873779,
   1955562222, 2024104815, 2227730452, 2361852424,
   2428436474, 2756734187, 3204031479, 3329325298]

/-- The eight-word hash state. -/
structure Hash8 where
  a : Nat
  b : Nat
  c : Nat
  d : Nat
  e : Nat
  f : Nat
  g : Nat
  h : Nat
deriving DecidableEq

/-- Initial hash value (decimal rendering). -/
def H0 : Hash8 :=
  ⟨1779033703, 3144134277, 1013904242, 2773480762,
   1359893119, 2600822924, 528734635, 1541459225⟩

/-- Big-endian packing of bytes into 32-bit words. -/
def toWords : List Nat → List Nat
  | b0 :: b1 :: b2 :: b3 :: rest =>
    (((b0 * 256 + b1) * 256 + b2) * 256 + b3) :: toWords rest
  | _ => []

/-- Extends the 16-word message schedule to 64 words (48 extension steps). -/
def extendSchedule : Nat → List Nat → List Nat
  | 0, w => w
  | n + 1, w =>
    let t := w.length
    let nw := add32 (add32 (ssig1 (w.getD (t - 2) 0)) (w.getD (t - 7) 0))
                    (add32 (ssig0 (w.getD (t - 15) 0)) (w.getD (t - 16) 0))
    extendSchedule n (w ++ [nw])

/-- One compression round per schedule word. -/
def compressWords : Hash8 → List Nat → List Nat → Hash8
  | hh, k :: ks, w :: ws =>
    let t1 := add32 hh.h (add32 (bsig1 hh.e) (add32 (ch hh.e hh.f hh.g) (add32 k w)))
    let t2 := add32 (bsig0 hh.a) (maj hh.a hh.b hh.c)
    compressWords ⟨add32 t1 t2, hh.a, hh.b, hh.c, add32 hh.d t1, hh.e, hh.f, hh.g⟩ ks ws
  | hh, _, _ => hh

def addHash (x y : Hash8) : Hash8 :=
  ⟨add32 x.a y.a, add32 x.b y.b, add32 x.c y.c, add32 x.d y.d,
   add32 x.e y.e, add32 x.f y.f, add32 x.g y.g, add32 x.h y.h⟩

def compressBlock (hh : Hash8) (block : List Nat) : Hash8 :=
  addHash hh (compressWords hh K (extendSchedule 48 (toWords block)))

def processBlocks (hh : Hash8) (l : List Nat) : Hash8 :=
  if hl : l = [] then hh
  else processBlocks (compressBlock hh (l.take 64)) (l.drop 64)
termination_by l.length
decreasing_by
  have hp : 0 < l.length := List.length_pos.mpr hl
  simp only [List.length_drop]
  omega

/-- Big-endian 8-byte encoding of the bit length. -/
def lenBytes (n : Nat) : List Nat :=
  [n / 72057594037927936 % 256, n / 281474976710656 % 256,
   n / 1099511627776 % 256, n / 4294967296 % 256,
   n / 16777216 % 256, n / 65536 % 256, n / 256 % 256, n % 256]

/-- Merkle–Damgård padding: 0x80, zeros to 56 mod 64, 64-bit length. -/
def padMessage (msg : List Nat) : List Nat :=
  let l := msg.length
  let zeros := (64 - ((l + 9) % 64)) % 64
  msg ++ [128] ++ List.replicate zeros 0 ++ lenBytes (8 * l)

def sha256bytes (msg : List Nat) : Hash8 := processBlocks H0 (padMessage msg)

/-- Big-endian bytes of one state word. -/
def wordBytes (x : Nat) : List Nat :=
  [x / 16777216 % 256, x / 65536 % 256, x / 256 % 256, x % 256]

def digestBytes (hh : Hash8) : List Nat :=
  wordBytes hh.a ++ wordBytes hh.b ++ wordBytes hh.c ++ wordBytes hh.d ++
  wordBytes hh.e ++ wordBytes hh.f ++ wordBytes hh.g ++ wordBytes hh.h

def hexDigitChar (n : Nat) : Char :=
  if n < 10 then Char.ofNat (48 + n) else Char.ofNat (87 + n)

def byteHex (b : Nat) : List Char := [hexDigitChar (b / 16 % 16), hexDigitChar (b % 16)]

def hexOfBytes : List Nat → List Char
  | [] => []
  | b :: bs => byteHex b ++ hexOfBytes bs

/-- Lower-case hex digest of a byte message, Python `hashlib.sha256(..).hexdigest()`. -/
def hexdigest (msg : List Nat) : String := ⟨hexOfBytes (digestBytes (sha256bytes msg))⟩

end SHA256

/-- UTF-8 encoding of one character, Python `str.encode()`. -/
def utf8Char (c : Char) : List Nat :=
  let n := c.toNat
  if n < 128 then [n]
  else if n < 2048 then [192 + n / 64, 128 + n % 64]
  else if n < 65536 then [224 + n / 4096, 128 + n / 64 % 64, 128 + n % 64]
  else [240 + n / 262144, 128 + n / 4096 % 64, 128 + n / 64 % 64, 128 + n % 64]

def utf8Bytes (s : String) : List Nat := s.data.flatMap utf8Char

/-- app/core/security.py `get_password_hash`: SHA-256 of the password with the
fixed salt appended. -/
def get_password_hash (password : String) : String :=
  SHA256.hexdigest (utf8Bytes (password ++ "fixed_salt_here"))

/-- Functional model of `secrets.compare_digest`: decides equality of the two
strings (its constant-time execution is an attribute of the primitive, not of
the result). -/
def compare_digest (a b : String) : Bool := a == b

/-- app/core/security.py `verify_password`: hashes the candidate and compares
digests; the plaintext is never compared against the stored value. -/
def verify_password (plain hashed : String) : Bool :=
  compare_digest (get_password_hash plain) hashed

/-- Modelled from the spec: app/models/user.py is absent from the source tree
(only its importers are present); spec section 3 gives the User record:
unique username and email, hashed_password, is_active default true,
is_superuser default false. -/
structure User where
  id : Nat
  username : String
  email : String
  hashed_password : String
  is_active : Bool
  is_superuser : Bool
deriving DecidableEq

/-- Bearer token as seen by `jose.jwt.decode`: claims plus the facts the
library checks (parseability, signature validity against SECRET_KEY, expiry). -/
structure TokenModel where
  wellFormed : Bool
  sigValid : Bool
  exp : Nat
  sub : Option String
  is_superuser : Bool
deriving DecidableEq

structure TokenData where
  username : String
  is_superuser : Bool
deriving DecidableEq

/-- jose.jwt.decode: raises JWTError on a malformed token, a bad or missing
signature (tampered/unsigned), or an elapsed `exp` claim. -/
def jwt_decode (now : Nat) (t : TokenModel) : Except String (Option String × Bool) :=
  if !t.wellFormed then .error "Not enough segments"
  else if !t.sigValid then .error "Signature verification failed"
  else if t.exp ≤ now then .error "Signature has expired"
  else .ok (t.sub, t.is_superuser)

/-- app/core/security.py `verify_token`: converts any JWTError (including a
missing subject) into the HTTP 401 error. -/
def verify_token (now : Nat) (t : TokenModel) : Except String TokenData :=
  match jwt_decode now t with
  | .error e => .error ("Could not validate credentials: " ++ e)
  | .ok (sub, su) =>
    match sub with
    | none => .error "Could not validate credentials: Invalid token: no subject"
    | some u => .ok ⟨u, su⟩

def findUser (users : List User) (uname : String) : Option User :=
  users.find? (fun u => u.username == uname)

/-- app/core/security.py `get_current_user`: cookie extraction, token
verification (all failures caught and mapped to None), store lookup and
is_active check. -/
def get_current_user (now : Nat) (cookie : Option TokenModel) (users : List User) :
    Option User :=
  match cookie with
  | none => none
  | some t =>
    match verify_token now t with
    | .error _ => none
    | .ok td =>
      if td.username == "" then none
      else
        match findUser users td.username with
        | none => none
        | some u => if u.is_active then some u else none

/-- app/core/security.py `get_current_superuser`: the genuine role gate, which
returns an error envelope for anonymous or non-admin callers.  The JSON
routers do not use it (see `api_get_current_superuser`). -/
def security_get_current_superuser (current_user : Option User) :
    Except (DefaultResponse Unit) User :=
  match current_user with
  | none => .error ⟨true, "Authentication required", none⟩
  | some u =>
    if !u.is_superuser then .error ⟨true, "Admin access required", none⟩
    else .ok u

/-- Outcome of the web registration form handler. -/
inductive RegisterResult where
  | formError (msg : String)
  | success (u : User) (users : List User)
deriving DecidableEq

/-- app/api/routers/router_web/auth.py `register`: password confirmation,
username/email uniqueness pre-checks, then the new user row is stored with
`hashed_password := get_password_hash password`. -/
def register (username email password confirm_password : String)
    (users : List User) : RegisterResult :=
  if password != confirm_password then .formError "Passwords do not match"
  else if users.any (fun u => u.username == username) then
    .formError "Username already exists"
  else if users.any (fun u => u.email == email) then
    .formError "Email already exists"
  else
    let u : User := ⟨nextId (users.map (fun x => x.id)), username, email,
      get_password_hash password, true, false⟩
    .success u (users ++ [u])

/-- Caller identity dictionary produced by the stub dependencies. -/
structure GateUser where
  username : String
  is_superuser : Bool
deriving DecidableEq

/-- app/api/dependencies.py `get_current_user_optional`: a stub that ignores
the request and returns a fixed regular-user identity. -/
def api_get_current_user_optional (_cred : Option TokenModel) : GateUser :=
  ⟨"user", false⟩

/-- app/api/dependencies.py `get_current_superuser`: a stub that ignores the
request entirely and resolves every caller — anonymous included — to a fixed
administrator identity.  This is the dependency the JSON routers import. -/
def api_get_current_superuser (_cred : Option TokenModel) : GateUser :=
  ⟨"admin", true⟩

namespace DepartmentsRouter

/-- app/api/routers/departments.py GET `/departments/`: no authentication
dependency at all. -/
def get_departments (dbFail : Bool) (skip limit : Nat) (s : Store) :
    DefaultResponse (List DepartmentSchema) :=
  if dbFail then ⟨true, "Error retrieving departments: " ++ dbError, none⟩
  else
    ⟨false, "Departments retrieved successfully",
      some (((s.departments.map (fun d => deptSchema s d)).drop skip).take limit)⟩

/-- app/api/routers/departments.py GET `/departments/{id}`: no authentication
dependency at all. -/
def get_department (dbFail : Bool) (i : Nat) (s : Store) :
    DefaultResponse DepartmentSchema :=
  if dbFail then ⟨true, "Error retrieving department: " ++ dbError, none⟩
  else
    match s.findDept i with
    | none => ⟨true, "Department not found", none⟩
    | some d => ⟨false, "Department retrieved successfully", some (deptSchema s d)⟩

/-- app/api/routers/departments.py POST `/departments/`: the only gate is the
stub dependency, whose result is never inspected; the endpoint inserts without
any duplicate-name pre-check (the DB unique constraint is the only guard). -/
def create_department (cred : Option TokenModel) (dbFail : Bool)
    (data : DepartmentCreate) (s : Store) :
    DefaultResponse DepartmentSchema × Store :=
  let _current_user := api_get_current_superuser cred
  if dbFail then (⟨true, "Error creating department: " ++ dbError, none⟩, s)
  else
    let d : Department := ⟨nextId (s.departments.map (fun x => x.id)), data.name, data.description⟩
    match dbInsertDepartment s d with
    | .error e => (⟨true, "Error creating department: " ++ e, none⟩, s)
    | .ok s' => (⟨false, "Department created successfully",
                  some ⟨d.id, d.name, d.description, 0⟩⟩, s')

/-- app/api/routers/departments.py DELETE `/departments/{id}`: stub gate, then
the same dependency-guarded delete as the service. -/
def delete_department (cred : Option TokenModel) (dbFail : Bool) (i : Nat)
    (s : Store) : DefaultResponse Unit × Store :=
  let _current_user := api_get_current_superuser cred
  if dbFail then (⟨true, "Error deleting department: " ++ dbError, none⟩, s)
  else
    match s.findDept i with
    | none => (⟨true, "Department not found", none⟩, s)
    | some _ =>
      let c := s.deptEmployeeCount i
      if 0 < c then
        (⟨true, "Cannot delete department with " ++ toString c ++ " employees", none⟩, s)
      else
        (⟨false, "Department deleted successfully", none⟩,
         { s with departments := s.departments.filter (fun d => d.id != i) })

end DepartmentsRouter

/-- Empty store used by concrete checks. -/
def emptyStore : Store := ⟨[], [], [], []⟩

def dIT : Department := ⟨1, "IT", none⟩

def dHR : Department := ⟨2, "HR", some "Human resources"⟩

def pDev : Position := ⟨1, "Developer", none, 1000⟩

def pMgr : Position := ⟨2, "Manager", none, 1200⟩

def stActive : Status := ⟨1, "active"⟩

def eAnna : Employee :=
  ⟨1, "Anna", "Bell", none, 700000, none, none, 739000, 500, 1, some 1, some 1, 1, none, 0, 0⟩

def eBob : Employee :=
  ⟨2, "Bob", "Smith", none, 700100, none, none, 739100, 600, 1, none, none, 1, none, 0, 0⟩

/-- Working store: two departments and two positions, the first of each with
one assigned employee, plus one unassigned employee. -/
def storeW : Store := ⟨[dIT, dHR], [pDev, pMgr], [stActive], [eAnna, eBob]⟩

def storeOneDept : Store := ⟨[dIT], [], [], []⟩

/-- C10: for the Employee list query a falsy filter value (0 for the id
filters, the empty string for search) is treated as absent, so the result
equals the unfiltered listing. -/
theorem C10_falsy_filters_treated_as_absent :
    ∀ (dbFail : Bool) (skip limit : Nat) (s : Store),
      EmployeeService.get_all_employees dbFail skip limit (some 0) none none none s
        = EmployeeService.get_all_employees dbFail skip limit none none none none s ∧
      EmployeeService.get_all_employees dbFail skip limit none (some 0) none none s
        = EmployeeService.get_all_employees dbFail skip limit none none none none s ∧
      EmployeeService.get_all_employees dbFail skip limit none none (some 0) none s
        = EmployeeService.get_all_employees dbFail skip limit none none none none s ∧
      EmployeeService.get_all_employees dbFail skip limit none none none (some "") s
        = EmployeeService.get_all_employees dbFail skip limit none none none none s := by
  intro dbFail skip limit s
  exact ⟨rfl, rfl, rfl, rfl⟩

/-- C1: the claim fails on the code.  The JSON routers guard mutations with
the stub dependency `api_get_current_superuser`, which ignores the caller, so
an anonymous create succeeds and mutates the store, an anonymous delete is
processed the same way as an administrator's, and the list/get endpoints carry
no authentication dependency at all and succeed for anonymous callers. -/
theorem C1_json_auth_gate_is_bypassed :
    (∀ cred cred' dbFail data s,
       DepartmentsRouter.create_department cred dbFail data s
         = DepartmentsRouter.create_department cred' dbFail data s) ∧
    (DepartmentsRouter.create_department none false ⟨"IT", none⟩ emptyStore).1.error = false ∧
    (DepartmentsRouter.create_department none false ⟨"IT", none⟩ emptyStore).2.departments
      = [⟨1, "IT", none⟩] ∧
    (∀ cred cred' dbFail i s,
       DepartmentsRouter.delete_department cred dbFail i s
         = DepartmentsRouter.delete_department cred' dbFail i s) ∧
    (DepartmentsRouter.get_departments false 0 100 emptyStore).error = false ∧
    (DepartmentsRouter.get_department false 1
       (DepartmentsRouter.create_department none false ⟨"IT", none⟩ emptyStore).2).error
      = false :=
  ⟨fun _ _ _ _ _ => rfl, rfl, rfl, fun _ _ _ _ _ => rfl, rfl, rfl⟩

/-- C4 counterexample: `get_departments_for_web` is a service operation, yet
on a persistence failure it returns the bare empty list — the very value a
successful call returns on an empty store — instead of an envelope with
`error=true`; no error flag exists in its result at all. -/
theorem C4_cex_web_listing_swallows_failure :
    DepartmentService.get_departments_for_web true storeOneDept = [] ∧
    DepartmentService.get_departments_for_web false emptyStore = [] ∧
    DepartmentService.get_departments_for_web false storeOneDept ≠ [] := by
  refine ⟨rfl, rfl, ?_⟩
  decide

/-- C4 amended: every envelope-returning service operation converts a
persistence failure into a `DefaultResponse` with `error=true` (and leaves the
store unchanged), while the `*_for_web` operations catch the failure but
return a bare list that is empty on failure, not an envelope. -/
theorem C4_amended_failures_become_envelopes :
    (∀ skip limit s, (DepartmentService.get_all_departments true skip limit s).error = true) ∧
    (∀ i s, (DepartmentService.get_department_by_id true i s).error = true) ∧
    (∀ d s, (DepartmentService.create_department true d s).1.error = true ∧
            (DepartmentService.create_department true d s).2 = s) ∧
    (∀ i p s, (DepartmentService.update_department true i p s).1.error = true ∧
              (DepartmentService.update_department true i p s).2 = s) ∧
    (∀ i s, (DepartmentService.delete_department true i s).1.error = true ∧
            (DepartmentService.delete_department true i s).2 = s) ∧
    (∀ s, DepartmentService.get_departments_for_web true s = []) ∧
    (∀ skip limit s, (PositionService.get_all_positions true skip limit s).error = true) ∧
    (∀ i s, (PositionService.get_position_by_id true i s).error = true) ∧
    (∀ d s, (PositionService.create_position true d s).1.error = true ∧
            (PositionService.create_position true d s).2 = s) ∧
    (∀ i u s, (PositionService.update_position true i u s).1.error = true ∧
              (PositionService.update_position true i u s).2 = s) ∧
    (∀ i s, (PositionService.delete_position true i s).1.error = true ∧
            (PositionService.delete_position true i s).2 = s) ∧
    (∀ s, PositionService.get_positions_for_web true s = []) ∧
    (∀ skip limit d p st se s,
       (EmployeeService.get_all_employees true skip limit d p st se s).error = true) ∧
    (∀ i s, (EmployeeService.get_employee_by_id true i s).error = true) ∧
    (∀ now d s, (EmployeeService.create_employee true now d s).1.error = true ∧
                (EmployeeService.create_employee true now d s).2 = s) ∧
    (∀ now i q s, (EmployeeService.update_employee true now i q s).1.error = true ∧
                  (EmployeeService.update_employee true now i q s).2 = s) ∧
    (∀ i s, (EmployeeService.delete_employee true i s).1.error = true ∧
            (EmployeeService.delete_employee true i s).2 = s) ∧
    (∀ today s, EmployeeService.get_employees_for_web true today s = []) :=
  ⟨fun _ _ _ => rfl, fun _ _ => rfl, fun _ _ => ⟨rfl, rfl⟩, fun _ _ _ => ⟨rfl, rfl⟩,
   fun _ _ => ⟨rfl, rfl⟩, fun _ => rfl,
   fun _ _ _ => rfl, fun _ _ => rfl, fun _ _ => ⟨rfl, rfl⟩, fun _ _ _ => ⟨rfl, rfl⟩,
   fun _ _ => ⟨rfl, rfl⟩, fun _ => rfl,
   fun _ _ _ _ _ _ _ => rfl, fun _ _ => rfl, fun _ _ _ => ⟨rfl, rfl⟩,
   fun _ _ _ _ => ⟨rfl, rfl⟩, fun _ _ => ⟨rfl, rfl⟩, fun _ _ => rfl⟩

/-- C2: creating twice with the same natural key (Department.name,
Position.title) yields success then a Conflict envelope with no new row. -/
theorem C2_duplicate_natural_key_conflict
    (s : Store) (dd : DepartmentCreate) (pc : PositionCreate)
    (hd : deptNameTaken s dd.name = false)
    (hp : posTitleTaken s pc.title = false) :
    (DepartmentService.create_department false dd s).1.error = false ∧
    (DepartmentService.create_department false dd
       (DepartmentService.create_department false dd s).2).1
      = ⟨true, "Department with this name already exists", none⟩ ∧
    (DepartmentService.create_department false dd
       (DepartmentService.create_department false dd s).2).2
      = (DepartmentService.create_department false dd s).2 ∧
    (PositionService.create_position false pc s).1.error = false ∧
    (PositionService.create_position false pc
       (PositionService.create_position false pc s).2).1
      = ⟨true, "Position with this title already exists", none⟩ ∧
    (PositionService.create_position false pc
       (PositionService.create_position false pc s).2).2
      = (PositionService.create_position false pc s).2 := by
  have hd' : s.departments.any (fun d => d.name == dd.name) = false := hd
  have hp' : s.positions.any (fun p => p.title == pc.title) = false := hp
  refine ⟨?_, ?_, ?_, ?_, ?_, ?_⟩ <;>
    simp [DepartmentService.create_department, PositionService.create_position,
      dbInsertDepartment, dbInsertPosition, deptNameTaken, posTitleTaken, hd', hp']

/-- C2 witness: in the working store the name "QA" and the title "Tester" are
fresh; the second identical create returns the Conflict envelope. -/
theorem C2_witness :
    deptNameTaken storeW "QA" = false ∧ posTitleTaken storeW "Tester" = false ∧
    (DepartmentService.create_department false ⟨"QA", none⟩
       (DepartmentService.create_department false ⟨"QA", none⟩ storeW).2).1
      = ⟨true, "Department with this name already exists", none⟩ :=
  ⟨by decide, by decide,
   (C2_duplicate_natural_key_conflict storeW ⟨"QA", none⟩ ⟨"Tester", none, 900⟩
      (by decide) (by decide)).2.1⟩

theorem findDept_after_erase (s : Store) (i : Nat) :
    (Store.mk (s.departments.filter (fun d => d.id != i)) s.positions s.statuses
      s.employees).findDept i = none := by
  simp [Store.findDept, List.find?_eq_none, List.mem_filter]

theorem findPos_after_erase (s : Store) (i : Nat) :
    (Store.mk s.departments (s.positions.filter (fun p => p.id != i)) s.statuses
      s.employees).findPos i = none := by
  simp [Store.findPos, List.find?_eq_none, List.mem_filter]

/-- C3: deleting a Department/Position with a positive dependent employee
count fails with an envelope naming the count and leaves the store unchanged;
with a zero count the delete succeeds and the row is subsequently not found;
employee deletion has no dependency guard. -/
theorem C3_delete_dependency_guard
    (s : Store) (iBusy iFree jBusy jFree k : Nat)
    (dBusy dFree : Department) (pBusy pFree : Position) (e : Employee)
    (hdB : s.findDept iBusy = some dBusy) (hnB : 0 < s.deptEmployeeCount iBusy)
    (hdF : s.findDept iFree = some dFree) (hnF : s.deptEmployeeCount iFree = 0)
    (hpB : s.findPos jBusy = some pBusy) (hmB : 0 < s.posEmployeeCount jBusy)
    (hpF : s.findPos jFree = some pFree) (hmF : s.posEmployeeCount jFree = 0)
    (he : s.findEmp k = some e) :
    DepartmentService.delete_department false iBusy s
      = (⟨true, "Cannot delete department with "
            ++ toString (s.deptEmployeeCount iBusy) ++ " employees", none⟩, s) ∧
    (DepartmentService.delete_department false iFree s).1.error = false ∧
    DepartmentService.get_department_by_id false iFree
      (DepartmentService.delete_department false iFree s).2
      = ⟨true, "Department not found", none⟩ ∧
    PositionService.delete_position false jBusy s
      = (⟨true, "Cannot delete position with "
            ++ toString (s.posEmployeeCount jBusy) ++ " employees", none⟩, s) ∧
    (PositionService.delete_position false jFree s).1.error = false ∧
    PositionService.get_position_by_id false jFree
      (PositionService.delete_position false jFree s).2
      = ⟨true, "Position not found", none⟩ ∧
    (EmployeeService.delete_employee false k s).1.error = false ∧
    (EmployeeService.delete_employee false k s).2.employees
      = s.employees.filter (fun x => x.id != k) := by
  refine ⟨?_, ?_, ?_, ?_, ?_, ?_, ?_, ?_⟩
  · simp [DepartmentService.delete_department, hdB, hnB]
  · simp [DepartmentService.delete_department, hdF, hnF]
  · simp [DepartmentService.delete_department, hdF, hnF,
      DepartmentService.get_department_by_id, findDept_after_erase]
  · simp [PositionService.delete_position, hpB, hmB]
  · simp [PositionService.delete_position, hpF, hmF]
  · simp [PositionService.delete_position, hpF, hmF,
      PositionService.get_position_by_id, findPos_after_erase]
  · simp [EmployeeService.delete_employee, he]
  · simp [EmployeeService.delete_employee, he]

/-- C3 witness: in the working store department 1 and position 1 each have one
employee and cannot be deleted, department 2 deletes and is then not found. -/
theorem C3_witness :
    storeW.findDept 1 = some dIT ∧ 0 < storeW.deptEmployeeCount 1 ∧
    storeW.deptEmployeeCount 2 = 0 ∧
    DepartmentService.delete_department false 1 storeW
      = (⟨true, "Cannot delete department with "
            ++ toString (storeW.deptEmployeeCount 1) ++ " employees", none⟩, storeW) ∧
    DepartmentService.get_department_by_id false 2
      (DepartmentService.delete_department false 2 storeW).2
      = ⟨true, "Department not found", none⟩ :=
  ⟨by decide, by decide, by decide,
   (C3_delete_dependency_guard storeW 1 2 1 2 2 dIT dHR pDev pMgr eBob
      (by decide) (by decide) (by decide) (by decide) (by decide) (by decide)
      (by decide) (by decide) (by decide)).1,
   (C3_delete_dependency_guard storeW 1 2 1 2 2 dIT dHR pDev pMgr eBob
      (by decide) (by decide) (by decide) (by decide) (by decide) (by decide)
      (by decide) (by decide) (by decide)).2.2.1⟩

def emptyDeptPatch : DepartmentUpdate := ⟨none, none⟩

def emptyEmpPatch : EmployeeUpdate :=
  ⟨none, none, none, none, none, none, none, none, none, none, none, none, none⟩

def emptyPosPatch : PositionUpdate := ⟨none, none, none⟩

theorem validate_upd_relations_error (s : Store) (q : EmployeeUpdate)
    (r : DefaultResponse EmployeeSchema)
    (h : EmployeeService.validate_employee_update_relations s q = some r) :
    r.error = true := by
  unfold EmployeeService.validate_employee_update_relations
    EmployeeService.checkUpdDept EmployeeService.checkUpdStatus at h
  repeat' split at h
  all_goals
    first
      | exact Option.noConfusion h
      | (injection h with h; exact congrArg DefaultResponse.error h.symm)

theorem dbUpdateEmployee_ok_eq (s : Store) (i : Nat) (e : Employee) (s' : Store)
    (h : dbUpdateEmployee s i e = .ok s') :
    s' = { s with employees := s.employees.map (fun x => if x.id == i then e else x) } := by
  unfold dbUpdateEmployee at h
  split at h
  · exact absurd h (by simp)
  · split at h
    · exact absurd h (by simp)
    · injection h with h
      exact h.symm

/-- C7: for each entity service (Department, Position, Employee) an update
with an empty patch succeeds and leaves the stored rows unchanged; in general
a field absent from the patch is never modified — the patched row keeps every
unsupplied field, and rows with other ids are untouched. -/
theorem C7_empty_patch_and_frame
    (s : Store) (now i j k : Nat) (d : Department) (e : Employee) (po : Position)
    (hd : s.findDept i = some d) (he : s.findEmp j = some e)
    (hp : s.findPos k = some po) :
    DepartmentService.update_department false i emptyDeptPatch s
      = (⟨false, "Department updated successfully",
          some ⟨d.id, d.name, d.description, s.deptEmployeeCount i⟩⟩, s) ∧
    EmployeeService.update_employee false now j emptyEmpPatch s
      = (⟨false, "Employee updated successfully", some (employeeToSchema e)⟩, s) ∧
    (∀ (p : DepartmentUpdate) (x : Department),
      (p.name = none → (applyDeptPatch p x).name = x.name) ∧
      (p.description = none → (applyDeptPatch p x).description = x.description)) ∧
    (∀ (q : EmployeeUpdate) (y : Employee),
      (q.first_name = none → (applyEmployeePatch now q y).first_name = y.first_name) ∧
      (q.last_name = none → (applyEmployeePatch now q y).last_name = y.last_name) ∧
      (q.middle_name = none → (applyEmployeePatch now q y).middle_name = y.middle_name) ∧
      (q.birth_date = none → (applyEmployeePatch now q y).birth_date = y.birth_date) ∧
      (q.email = none → (applyEmployeePatch now q y).email = y.email) ∧
      (q.phone = none → (applyEmployeePatch now q y).phone = y.phone) ∧
      (q.hire_date = none → (applyEmployeePatch now q y).hire_date = y.hire_date) ∧
      (q.salary = none → (applyEmployeePatch now q y).salary = y.salary) ∧
      (q.rate = none → (applyEmployeePatch now q y).rate = y.rate) ∧
      (q.department_id = none → (applyEmployeePatch now q y).department_id = y.department_id) ∧
      (q.position_id = none → (applyEmployeePatch now q y).position_id = y.position_id) ∧
      (q.status_id = none → (applyEmployeePatch now q y).status_id = y.status_id) ∧
      (q.address = none → (applyEmployeePatch now q y).address = y.address)) ∧
    (∀ p : DepartmentUpdate,
      (DepartmentService.update_department false i p s).1.error = false →
      (DepartmentService.update_department false i p s).2.departments
        = s.departments.map (fun x => if x.id == i then applyDeptPatch p x else x)) ∧
    (∀ q : EmployeeUpdate, empPatchEmpty q = false →
      (EmployeeService.update_employee false now j q s).1.error = false →
      (EmployeeService.update_employee false now j q s).2.employees
        = s.employees.map (fun x => if x.id == j then applyEmployeePatch now q e else x)) ∧
    PositionService.update_position false k emptyPosPatch s
      = (⟨false, "Position updated successfully",
          some ⟨po.id, po.title, po.description, po.base_salary, s.posEmployeeCount k⟩⟩, s) ∧
    (∀ (u : PositionUpdate) (x : Position),
      (u.title = none → (applyPosPatch u x).title = x.title) ∧
      (u.description = none → (applyPosPatch u x).description = x.description) ∧
      (u.base_salary = none → (applyPosPatch u x).base_salary = x.base_salary)) ∧
    (∀ u : PositionUpdate,
      (PositionService.update_position false k u s).1.error = false →
      (PositionService.update_position false k u s).2.positions
        = s.positions.map (fun x => if x.id == k then applyPosPatch u x else x)) := by
  refine ⟨?_, ?_, ?_, ?_, ?_, ?_, ?_, ?_, ?_⟩
  · simp [DepartmentService.update_department, hd, emptyDeptPatch, applyDeptPatch]
  · simp [EmployeeService.update_employee, he, emptyEmpPatch,
      EmployeeService.validate_employee_update_relations, EmployeeService.checkUpdDept,
      EmployeeService.checkUpdStatus, suppliedTruthyNat, patchTruthyNat, empPatchEmpty,
      EmployeeService.get_employee_by_id]
  · intro p x
    constructor
    · intro hp; simp [applyDeptPatch, hp]
    · intro hp; simp [applyDeptPatch, hp]
  · intro q y
    refine ⟨?_, ?_, ?_, ?_, ?_, ?_, ?_, ?_, ?_, ?_, ?_, ?_, ?_⟩ <;>
      (intro hq; simp [applyEmployeePatch, hq])
  · intro p herr
    simp only [DepartmentService.update_department, hd] at herr ⊢
    by_cases hc : (match p.name with
        | some n => s.departments.any (fun x => x.name == n && x.id != i)
        | none => false) = true
    · simp [hc] at herr
    · simp only [Bool.not_eq_true] at hc
      simp [hc] at herr ⊢
  · intro q hne herr
    simp only [EmployeeService.update_employee, he] at herr ⊢
    cases hv : EmployeeService.validate_employee_update_relations s q with
    | some r =>
      have hr := validate_upd_relations_error s q r hv
      simp [hv, hr] at herr
    | none =>
      simp only [hv, hne, Bool.false_eq_true, if_false] at herr ⊢
      cases hdb : dbUpdateEmployee s j (applyEmployeePatch now q e) with
      | error msg => simp [hdb] at herr
      | ok s' =>
        have hs' := dbUpdateEmployee_ok_eq s j (applyEmployeePatch now q e) s' hdb
        subst hs'
        simp [hdb]
  · simp [PositionService.update_position, hp, emptyPosPatch, applyPosPatch]
  · intro u x
    refine ⟨?_, ?_, ?_⟩ <;> (intro hu; simp [applyPosPatch, hu])
  · intro u herr
    simp only [PositionService.update_position, hp] at herr ⊢
    by_cases hc : (match u.title with
        | some t => s.positions.any (fun x => x.title == t && x.id != k)
        | none => false) = true
    · simp [hc] at herr
    · simp only [Bool.not_eq_true] at hc
      simp [hc] at herr ⊢

/-- C7 witness: empty-patch updates of department 1, employee 1 and position 1
of the working store succeed and change nothing. -/
theorem C7_witness :
    storeW.findDept 1 = some dIT ∧ storeW.findEmp 1 = some eAnna ∧
    storeW.findPos 1 = some pDev ∧
    DepartmentService.update_department false 1 emptyDeptPatch storeW
      = (⟨false, "Department updated successfully", some ⟨1, "IT", none, 1⟩⟩, storeW) ∧
    EmployeeService.update_employee false 99 1 emptyEmpPatch storeW
      = (⟨false, "Employee updated successfully", some (employeeToSchema eAnna)⟩, storeW) ∧
    PositionService.update_position false 1 emptyPosPatch storeW
      = (⟨false, "Position updated successfully",
          some ⟨1, "Developer", none, 1000, 1⟩⟩, storeW) := by
  have happ := C7_empty_patch_and_frame storeW 99 1 1 1 dIT eAnna pDev
    (by decide) (by decide) (by decide)
  exact ⟨by decide, by decide, by decide, happ.1, happ.2.1, happ.2.2.2.2.2.2.1⟩

/-- C5: a request with an expired, tampered, malformed or unsigned token (or
one without a subject) resolves to exactly the identity of a request with no
token at all — None — and is never resolved to an authenticated user. -/
theorem C5_invalid_token_resolves_to_anonymous
    (now : Nat) (t : TokenModel) (users : List User)
    (h : t.wellFormed = false ∨ t.sigValid = false ∨ t.exp ≤ now ∨ t.sub = none) :
    get_current_user now (some t) users = none ∧
    get_current_user now none users = none ∧
    get_current_user now (some t) users = get_current_user now none users := by
  have hv : ∃ msg, verify_token now t = .error msg := by
    by_cases hw : t.wellFormed = false
    · exact ⟨"Could not validate credentials: Not enough segments",
        by simp [verify_token, jwt_decode, hw]⟩
    · have hw' : t.wellFormed = true := by
        revert hw; cases t.wellFormed <;> simp
      by_cases hs : t.sigValid = false
      · exact ⟨"Could not validate credentials: Signature verification failed",
          by simp [verify_token, jwt_decode, hw', hs]⟩
      · have hs' : t.sigValid = true := by
          revert hs; cases t.sigValid <;> simp
        by_cases hexp : t.exp ≤ now
        · exact ⟨"Could not validate credentials: Signature has expired",
            by simp [verify_token, jwt_decode, hw', hs', hexp]⟩
        · have hsub : t.sub = none := by
            rcases h with h | h | h | h
            · exact absurd h (by simp [hw'])
            · exact absurd h (by simp [hs'])
            · exact absurd h hexp
            · exact h
          exact ⟨"Could not validate credentials: Invalid token: no subject",
            by simp [verify_token, jwt_decode, hw', hs', hexp, hsub]⟩
  obtain ⟨msg, hmsg⟩ := hv
  refine ⟨?_, rfl, ?_⟩
  · simp [get_current_user, hmsg]
  · simp [get_current_user, hmsg]

/-- C5 witness: an expired admin token at time 10 resolves to None just like
the absent token. -/
theorem C5_witness :
    ((⟨true, true, 5, some "admin", true⟩ : TokenModel).wellFormed = false ∨
     (⟨true, true, 5, some "admin", true⟩ : TokenModel).sigValid = false ∨
     (⟨true, true, 5, some "admin", true⟩ : TokenModel).exp ≤ 10 ∨
     (⟨true, true, 5, some "admin", true⟩ : TokenModel).sub = none) ∧
    get_current_user 10 (some ⟨true, true, 5, some "admin", true⟩)
      [⟨1, "admin", "admin@co", "h", true, true⟩] = none :=
  ⟨Or.inr (Or.inr (Or.inl (by decide))),
   (C5_invalid_token_resolves_to_anonymous 10 ⟨true, true, 5, some "admin", true⟩
      [⟨1, "admin", "admin@co", "h", true, true⟩]
      (Or.inr (Or.inr (Or.inl (by decide))))).1⟩

def storeC6 : Store := ⟨[], [], [stActive], []⟩

/-- Create payload whose supplied department_id is 0, referencing no row. -/
def empDeptZero : EmployeeCreate :=
  ⟨"Ivan", "Petrov", none, 700000, none, none, 739000, 500, 1, some 0, none, 1, none⟩

/-- C6 counterexample: a create whose supplied department_id is 0 references
no existing department, yet the falsy-value guard skips the pre-check, so the
operation fails at commit with the generic persistence-error envelope rather
than any of the InvalidReference envelopes the service produces. -/
theorem C6_cex_zero_reference_not_invalid_reference :
    empDeptZero.department_id = some 0 ∧
    storeC6.findDept 0 = none ∧
    (EmployeeService.create_employee false 0 empDeptZero storeC6).1.error = true ∧
    (EmployeeService.create_employee false 0 empDeptZero storeC6).1.message
      = "Error creating employee: " ++ fkError ∧
    (EmployeeService.create_employee false 0 empDeptZero storeC6).1.message
      ≠ "Department with id 0 not found" ∧
    (EmployeeService.create_employee false 0 empDeptZero storeC6).2 = storeC6 := by
  refine ⟨rfl, rfl, ?_, ?_, ?_, ?_⟩ <;> decide

theorem validate_upd_pos_pass (s : Store) (q : EmployeeUpdate)
    (h : (suppliedTruthyNat q.position_id).all (fun v => (s.findPos v).isSome) = true) :
    EmployeeService.validate_employee_update_relations s q
      = EmployeeService.checkUpdDept s q := by
  unfold EmployeeService.validate_employee_update_relations
  cases hpv : suppliedTruthyNat q.position_id with
  | none => simp [hpv]
  | some pv =>
    have hps : (s.findPos pv).isSome = true := by
      simpa [hpv, Option.all] using h
    obtain ⟨pos, hpos⟩ := Option.isSome_iff_exists.mp hps
    simp [hpv, hpos]

theorem checkUpdDept_pass (s : Store) (q : EmployeeUpdate)
    (h : (suppliedTruthyNat q.department_id).all (fun v => (s.findDept v).isSome) = true) :
    EmployeeService.checkUpdDept s q = EmployeeService.checkUpdStatus s q := by
  unfold EmployeeService.checkUpdDept
  cases hdv : suppliedTruthyNat q.department_id with
  | none => simp [hdv]
  | some dv =>
    have hds : (s.findDept dv).isSome = true := by
      simpa [hdv, Option.all] using h
    obtain ⟨dep, hdep⟩ := Option.isSome_iff_exists.mp hds
    simp [hdv, hdep]

theorem checkUpdStatus_pass (s : Store) (q : EmployeeUpdate)
    (h : (patchTruthyNat q.status_id).all (fun v => (s.findStatus v).isSome) = true) :
    EmployeeService.checkUpdStatus s q = none := by
  unfold EmployeeService.checkUpdStatus
  cases hsv : patchTruthyNat q.status_id with
  | none => simp [hsv]
  | some sv =>
    have hss : (s.findStatus sv).isSome = true := by
      simpa [hsv, Option.all] using h
    obtain ⟨st, hst⟩ := Option.isSome_iff_exists.mp hss
    simp [hsv, hst]

/-- C6 amended: for both create and update, a supplied nonzero department_id,
position_id or status_id referencing no row makes the operation fail with the
InvalidReference envelope naming that id, with no write (each later check is
stated under the hypothesis that the code's earlier reference guards pass,
since validation reports the first failing reference); a supplied id of 0
skips the pre-check (0 is falsy) and instead surfaces as the store-level
foreign-key violation converted to the generic persistence-failure envelope —
still with error=true and no write.  (On create the status check is
unconditional, so status_id=0 still gets the InvalidReference envelope.) -/
theorem C6_amended_invalid_reference_guard
    (s : Store) (now : Nat)
    (c1 : EmployeeCreate) (v1 : Nat)
    (h11 : c1.position_id = some v1) (h12 : v1 ≠ 0) (h13 : s.findPos v1 = none)
    (c2 : EmployeeCreate) (v2 : Nat)
    (h21 : (truthyNat c2.position_id && (s.findPos (c2.position_id.getD 0)).isNone) = false)
    (h22 : c2.department_id = some v2) (h23 : v2 ≠ 0) (h24 : s.findDept v2 = none)
    (c3 : EmployeeCreate)
    (h31 : (truthyNat c3.position_id && (s.findPos (c3.position_id.getD 0)).isNone) = false)
    (h32 : (truthyNat c3.department_id && (s.findDept (c3.department_id.getD 0)).isNone) = false)
    (h33 : s.findStatus c3.status_id = none)
    (c4 : EmployeeCreate) (st4 : Status)
    (h41 : (truthyNat c4.position_id && (s.findPos (c4.position_id.getD 0)).isNone) = false)
    (h42 : c4.department_id = some 0)
    (h43 : s.findStatus c4.status_id = some st4) (h44 : s.findDept 0 = none)
    (i : Nat) (e : Employee) (he : s.findEmp i = some e)
    (q1 : EmployeeUpdate) (w1 : Nat)
    (hq11 : q1.position_id = some (some w1)) (hq12 : w1 ≠ 0) (hq13 : s.findPos w1 = none)
    (q3 : EmployeeUpdate) (w3 : Nat)
    (hq31 : (suppliedTruthyNat q3.position_id).all (fun v => (s.findPos v).isSome) = true)
    (hq32 : q3.department_id = some (some w3)) (hq33 : w3 ≠ 0) (hq34 : s.findDept w3 = none)
    (q4 : EmployeeUpdate) (w4 : Nat)
    (hq41 : (suppliedTruthyNat q4.position_id).all (fun v => (s.findPos v).isSome) = true)
    (hq42 : (suppliedTruthyNat q4.department_id).all (fun v => (s.findDept v).isSome) = true)
    (hq43 : q4.status_id = some w4) (hq44 : w4 ≠ 0) (hq45 : s.findStatus w4 = none)
    (q2 : EmployeeUpdate)
    (hq21 : (suppliedTruthyNat q2.position_id).all (fun v => (s.findPos v).isSome) = true)
    (hq22 : q2.department_id = some (some 0))
    (hq23 : (patchTruthyNat q2.status_id).all (fun v => (s.findStatus v).isSome) = true)
    (hq24 : s.findDept 0 = none) :
    EmployeeService.create_employee false now c1 s
      = (⟨true, "Position with id " ++ toString v1 ++ " not found", none⟩, s) ∧
    EmployeeService.create_employee false now c2 s
      = (⟨true, "Department with id " ++ toString v2 ++ " not found", none⟩, s) ∧
    EmployeeService.create_employee false now c3 s
      = (⟨true, "Status with id " ++ toString c3.status_id ++ " not found", none⟩, s) ∧
    EmployeeService.create_employee false now c4 s
      = (⟨true, "Error creating employee: " ++ fkError, none⟩, s) ∧
    EmployeeService.update_employee false now i q1 s
      = (⟨true, "Position with id " ++ toString w1 ++ " not found", none⟩, s) ∧
    EmployeeService.update_employee false now i q3 s
      = (⟨true, "Department with id " ++ toString w3 ++ " not found", none⟩, s) ∧
    EmployeeService.update_employee false now i q4 s
      = (⟨true, "Status with id " ++ toString w4 ++ " not found", none⟩, s) ∧
    EmployeeService.update_employee false now i q2 s
      = (⟨true, "Error updating employee: " ++ fkError, none⟩, s) := by
  refine ⟨?_, ?_, ?_, ?_, ?_, ?_, ?_, ?_⟩
  · simp [EmployeeService.create_employee, EmployeeService.validate_employee_relations,
      truthyNat, h11, h12, h13]
  · simp only [EmployeeService.create_employee, EmployeeService.validate_employee_relations,
      h21, Bool.false_eq_true, if_false]
    simp [truthyNat, h22, h23, h24]
  · simp only [EmployeeService.create_employee, EmployeeService.validate_employee_relations,
      h31, h32, Bool.false_eq_true, if_false]
    simp [h33]
  · have hdc0 : (truthyNat c4.department_id && (s.findDept (c4.department_id.getD 0)).isNone)
        = false := by
      simp [truthyNat, h42]
    simp only [EmployeeService.create_employee, EmployeeService.validate_employee_relations,
      h41, hdc0, Bool.false_eq_true, if_false]
    simp [h43, dbInsertEmployee, employeeFKOk, h42, h44]
  · simp [EmployeeService.update_employee, he,
      EmployeeService.validate_employee_update_relations, suppliedTruthyNat,
      hq11, hq12, hq13]
  · have hvr : EmployeeService.validate_employee_update_relations s q3
        = EmployeeService.checkUpdDept s q3 := validate_upd_pos_pass s q3 hq31
    have hdept : suppliedTruthyNat q3.department_id = some w3 := by
      simp [suppliedTruthyNat, hq32, hq33]
    simp [EmployeeService.update_employee, he, hvr, EmployeeService.checkUpdDept,
      hdept, hq34]
  · have hvr : EmployeeService.validate_employee_update_relations s q4
        = EmployeeService.checkUpdDept s q4 := validate_upd_pos_pass s q4 hq41
    have hvd : EmployeeService.checkUpdDept s q4 = EmployeeService.checkUpdStatus s q4 :=
      checkUpdDept_pass s q4 hq42
    have hst : patchTruthyNat q4.status_id = some w4 := by
      simp [patchTruthyNat, hq43, hq44]
    simp [EmployeeService.update_employee, he, hvr, hvd, EmployeeService.checkUpdStatus,
      hst, hq45]
  · have hvr : EmployeeService.validate_employee_update_relations s q2
        = EmployeeService.checkUpdDept s q2 := validate_upd_pos_pass s q2 hq21
    have hd0 : suppliedTruthyNat q2.department_id = none := by
      simp [suppliedTruthyNat, hq22]
    have hvs : EmployeeService.checkUpdStatus s q2 = none := checkUpdStatus_pass s q2 hq23
    have hvn : EmployeeService.validate_employee_update_relations s q2 = none := by
      rw [hvr]
      simp only [EmployeeService.checkUpdDept, hd0]
      exact hvs
    have hpe : empPatchEmpty q2 = false := by
      simp [empPatchEmpty, hq22]
    simp only [EmployeeService.update_employee, he, hvn, hpe, Bool.false_eq_true, if_false]
    simp [dbUpdateEmployee, employeeFKOk, applyEmployeePatch, hq22, hq24]

def cBadPos : EmployeeCreate :=
  ⟨"A", "B", none, 1, none, none, 1, 1, 1, none, some 9, 1, none⟩

def cBadDept : EmployeeCreate :=
  ⟨"A", "B", none, 1, none, none, 1, 1, 1, some 9, none, 1, none⟩

def cBadStatus : EmployeeCreate :=
  ⟨"A", "B", none, 1, none, none, 1, 1, 1, none, none, 7, none⟩

def cDeptZero : EmployeeCreate :=
  ⟨"A", "B", none, 1, none, none, 1, 1, 1, some 0, none, 1, none⟩

def qBadPos : EmployeeUpdate :=
  ⟨none, none, none, none, none, none, none, none, none, none, some (some 9), none, none⟩

def qBadDept : EmployeeUpdate :=
  ⟨none, none, none, none, none, none, none, none, none, some (some 9), none, none, none⟩

def qBadStatusU : EmployeeUpdate :=
  ⟨none, none, none, none, none, none, none, none, none, none, none, some 7, none⟩

def qDeptZero : EmployeeUpdate :=
  ⟨none, none, none, none, none, none, none, none, none, some (some 0), none, none, none⟩

/-- C6 witness: in the working store position 9 and department 9 do not
exist; a create naming position 9 and an update naming department 9 get the
InvalidReference envelopes, and a create supplying department_id 0 gets the
generic persistence-failure envelope. -/
theorem C6_witness :
    storeW.findPos 9 = none ∧ storeW.findDept 9 = none ∧ storeW.findDept 0 = none ∧
    EmployeeService.create_employee false 0 cBadPos storeW
      = (⟨true, "Position with id 9 not found", none⟩, storeW) ∧
    EmployeeService.create_employee false 0 cDeptZero storeW
      = (⟨true, "Error creating employee: " ++ fkError, none⟩, storeW) ∧
    EmployeeService.update_employee false 0 1 qBadDept storeW
      = (⟨true, "Department with id 9 not found", none⟩, storeW) := by
  have happ := C6_amended_invalid_reference_guard storeW 0
    cBadPos 9 (by decide) (by decide) (by decide)
    cBadDept 9 (by decide) (by decide) (by decide) (by decide)
    cBadStatus (by decide) (by decide) (by decide)
    cDeptZero stActive (by decide) (by decide) (by decide) (by decide)
    1 eAnna (by decide)
    qBadPos 9 (by decide) (by decide) (by decide)
    qBadDept 9 (by decide) (by decide) (by decide) (by decide)
    qBadStatusU 7 (by decide) (by decide) (by decide) (by decide) (by decide)
    qDeptZero (by decide) (by decide) (by decide) (by decide)
  exact ⟨by decide, by decide, by decide, happ.1, happ.2.2.2.1, happ.2.2.2.2.2.1⟩

/-- Case-insensitive substring: the folded needle is a contiguous substring of
the folded haystack.  This is the specification-side reading of the claim,
stated independently of the LIKE-pattern matcher. -/
def ciSubstr (needle hay : String) : Prop :=
  (needle.data.map lc) <:+: (hay.data.map lc)

instance ciSubstrDecidable (needle hay : String) : Decidable (ciSubstr needle hay) :=
  inferInstanceAs (Decidable ((needle.data.map lc) <:+: (hay.data.map lc)))

/-- Search strings free of LIKE metacharacters (wildcards and the escape). -/
def noSpec (w : List Char) : Prop := ∀ c ∈ w, c ≠ '%' ∧ c ≠ '_' ∧ c ≠ '\\'

instance noSpecDecidable (w : List Char) : Decidable (noSpec w) :=
  inferInstanceAs (Decidable (∀ c ∈ w, c ≠ '%' ∧ c ≠ '_' ∧ c ≠ '\\'))

theorem likeMatch_percent_eq (p t : List Char) :
    likeMatch ('%' :: p) t
      = (List.range (t.length + 1)).any (fun n => likeMatch p (t.drop n)) := by
  rw [likeMatch.eq_def]
  dsimp only []
  rw [if_pos rfl]

theorem likeMatch_lit_nil (a : Char) (p : List Char) (h1 : a ≠ '%') :
    likeMatch (a :: p) [] = false := by
  rw [likeMatch.eq_def]
  dsimp only []
  rw [if_neg h1]

theorem likeMatch_lit_cons (a : Char) (p : List Char) (c : Char) (t : List Char)
    (h1 : a ≠ '%') (h2 : a ≠ '_') (h3 : a ≠ '\\') :
    likeMatch (a :: p) (c :: t) = ((lc a == lc c) && likeMatch p t) := by
  rw [likeMatch.eq_def]
  dsimp only []
  rw [if_neg h1]
  rw [if_neg h2, if_neg h3]

theorem likeMatch_percent_nilp (t : List Char) : likeMatch ['%'] t = true := by
  rw [likeMatch_percent_eq]
  simp only [List.any_eq_true, List.mem_range]
  refine ⟨t.length, by omega, ?_⟩
  simp [likeMatch]

theorem likeMatch_lit_percent (w : List Char) (hw : noSpec w) (t : List Char) :
    likeMatch (w ++ ['%']) t = (w.map lc).isPrefixOf (t.map lc) := by
  induction w generalizing t with
  | nil => simp [likeMatch_percent_nilp, List.isPrefixOf]
  | cons a w' ih =>
    obtain ⟨ha1, ha2, ha3⟩ := hw a (List.mem_cons_self _ _)
    have hw' : noSpec w' := fun c hc => hw c (List.mem_cons_of_mem _ hc)
    cases t with
    | nil =>
      rw [List.cons_append, likeMatch_lit_nil a _ ha1]
      simp [List.isPrefixOf]
    | cons c t' =>
      rw [List.cons_append, likeMatch_lit_cons a _ c t' ha1 ha2 ha3, ih hw' t']
      simp [List.isPrefixOf]

theorem likeMatch_percent_iff (p t : List Char) :
    likeMatch ('%' :: p) t = true ↔ ∃ n, likeMatch p (t.drop n) = true := by
  rw [likeMatch_percent_eq]
  simp only [List.any_eq_true, List.mem_range]
  constructor
  · rintro ⟨n, _, hn⟩
    exact ⟨n, hn⟩
  · rintro ⟨n, hn⟩
    rcases le_or_lt t.length n with hle | hlt
    · refine ⟨t.length, by omega, ?_⟩
      rw [List.drop_eq_nil_of_le hle] at hn
      rwa [List.drop_length]
    · exact ⟨n, by omega, hn⟩

theorem infix_via_prefix_of_drop (w t : List Char) :
    (∃ n, w <+: t.drop n) ↔ w <:+: t := by
  constructor
  · rintro ⟨n, hp⟩
    exact List.infix_iff_prefix_suffix.mpr ⟨t.drop n, hp, List.drop_suffix n t⟩
  · intro h
    obtain ⟨u, hp, hs⟩ := List.infix_iff_prefix_suffix.mp h
    refine ⟨t.length - u.length, ?_⟩
    rwa [List.suffix_iff_eq_drop.mp hs] at hp

theorem ilikeSearch_eq_ciSubstr (needle hay : String) (h : noSpec needle.data) :
    ilikeSearch needle hay = decide (ciSubstr needle hay) := by
  apply Bool.eq_iff_iff.mpr
  rw [decide_eq_true_eq]
  unfold ilikeSearch ciSubstr
  rw [List.cons_append, likeMatch_percent_iff]
  constructor
  · rintro ⟨n, hn⟩
    rw [likeMatch_lit_percent _ h] at hn
    rw [ List.isPrefixOf_iff_prefix, List.map_drop] at hn
    exact (infix_via_prefix_of_drop _ _).mp ⟨n, hn⟩
  · intro hi
    obtain ⟨n, hn⟩ := (infix_via_prefix_of_drop _ _).mpr hi
    refine ⟨n, ?_⟩
    rw [likeMatch_lit_percent _ h, List.isPrefixOf_iff_prefix, List.map_drop]
    exact hn

theorem employeeMatches_search_only (str : String) (hne : str ≠ "")
    (hns : noSpec str.data) (e : Employee) :
    employeeMatches ⟨none, none, none, some str⟩ e
      = (decide (ciSubstr str e.first_name) || decide (ciSubstr str e.last_name) ||
         (match e.middle_name with
          | some m => decide (ciSubstr str m)
          | none => false)) := by
  have hb : (str != "") = true := by simpa using hne
  simp only [employeeMatches, truthyNat, truthyStr, hb, if_true, if_false,
    Bool.true_and, Option.getD_some]
  rw [ilikeSearch_eq_ciSubstr _ _ hns, ilikeSearch_eq_ciSubstr _ _ hns]
  cases e.middle_name with
  | none => simp
  | some m => simp [ilikeSearch_eq_ciSubstr _ _ hns]

/-- C8 counterexample: the search string is spliced into the ILIKE pattern, so
a LIKE wildcard inside it changes the semantics: searching for the underscore
returns an employee although the underscore is not a case-insensitive
substring of any of his name fields. -/
theorem C8_cex_wildcard_in_search :
    (EmployeeService.get_all_employees false 0 100 none none none (some "_")
       (Store.mk [] [] [stActive] [eBob])).payload
      = some [employeeToSchema eBob] ∧
    ¬ ciSubstr "_" eBob.first_name ∧
    ¬ ciSubstr "_" eBob.last_name ∧
    eBob.middle_name = none := by
  refine ⟨by decide, by decide, by decide, rfl⟩

/-- C8 amended: for a non-empty search string containing no LIKE
metacharacter (percent, underscore, backslash), the employee listing returns
exactly the employees one of whose name fields contains the string
case-insensitively — up to the offset/limit pagination the endpoint always
applies. -/
theorem C8_amended_search_is_ci_substring
    (str : String) (hne : str ≠ "") (hns : noSpec str.data)
    (skip limit : Nat) (s : Store) :
    (EmployeeService.get_all_employees false skip limit none none none (some str) s).payload
      = some ((((s.employees.filter (fun e =>
            decide (ciSubstr str e.first_name) || decide (ciSubstr str e.last_name) ||
            (match e.middle_name with
             | some m => decide (ciSubstr str m)
             | none => false))).drop skip).take limit).map employeeToSchema) := by
  unfold EmployeeService.get_all_employees
  simp only [Bool.false_eq_true, if_false]
  rw [List.filter_congr (fun e _ => employeeMatches_search_only str hne hns e)]

/-- C8 witness: searching "mit" in the working store returns exactly Bob
Smith, whose folded last name contains "mit". -/
theorem C8_witness :
    "mit" ≠ "" ∧ noSpec "mit".data ∧
    (EmployeeService.get_all_employees false 0 100 none none none (some "mit")
       storeW).payload = some [employeeToSchema eBob] :=
  ⟨by decide, by decide,
   C8_amended_search_is_ci_substring "mit" (by decide) (by decide) 0 100 storeW⟩

/-- C9: passwords are stored and compared only as salted SHA-256 digests:
verification succeeds exactly when the candidate's digest equals the stored
digest (never by plaintext string equality — a digest always has 64 hex
characters, so no password of any other length is ever stored verbatim), and
registration stores `get_password_hash password`, not the password.  The
constant-time execution of `secrets.compare_digest` is an attribute of the
primitive; its input-output behaviour is digest equality, modelled here. -/
theorem C9_password_hashing_discipline :
    (∀ plain hashed, verify_password plain hashed = true ↔ get_password_hash plain = hashed) ∧
    (∀ p, (get_password_hash p).length = 64) ∧
    (∀ p, p.length ≠ 64 → get_password_hash p ≠ p) ∧
    (∀ un em p c users u users',
       register un em p c users = .success u users' →
       u.hashed_password = get_password_hash p) := by
  have hhex : ∀ bs : List Nat, (SHA256.hexOfBytes bs).length = 2 * bs.length := by
    intro bs
    induction bs with
    | nil => rfl
    | cons b bs ih =>
      simp only [SHA256.hexOfBytes, SHA256.byteHex, List.length_append, ih,
        List.length_cons, List.length_nil]
      omega
  have hlen : ∀ p, (get_password_hash p).length = 64 := by
    intro p
    show (SHA256.hexOfBytes (SHA256.digestBytes
      (SHA256.sha256bytes (utf8Bytes (p ++ "fixed_salt_here"))))).length = 64
    rw [hhex]
    rfl
  refine ⟨?_, hlen, ?_, ?_⟩
  · intro plain hashed
    simp [verify_password, compare_digest]
  · intro p hp heq
    exact hp (by rw [← congrArg String.length heq, hlen])
  · intro un em p c users u users' h
    unfold register at h
    split at h
    · exact RegisterResult.noConfusion h
    · split at h
      · exact RegisterResult.noConfusion h
      · split at h
        · exact RegisterResult.noConfusion h
        · injection h with h1 h2
          rw [← h1]

/-- Stored row of the concrete registration used by the C9 witness. -/
def regUser : User := ⟨1, "alice", "alice@co", get_password_hash "admin123", true, false⟩

/-- C9 witness: a concrete registration stores the salted digest, which is not
the 8-character plaintext, and verification accepts exactly that password. -/
theorem C9_witness :
    register "alice" "alice@co" "admin123" "admin123" [] = .success regUser [regUser] ∧
    regUser.hashed_password = get_password_hash "admin123" ∧
    get_password_hash "admin123" ≠ "admin123" ∧
    verify_password "admin123" regUser.hashed_password = true :=
  ⟨rfl,
   C9_password_hashing_discipline.2.2.2 "alice" "alice@co" "admin123" "admin123"
     [] regUser [regUser] rfl,
   C9_password_hashing_discipline.2.2.1 "admin123" (by decide),
   (C9_password_hashing_discipline.1 "admin123" regUser.hashed_password).mpr
     (C9_password_hashing_discipline.2.2.2 "alice" "alice@co" "admin123" "admin123"
        [] regUser [regUser] rfl).symm⟩
